import Mathlib

/-!
Verification of the `zomboid_map_parser` Python library against its
specification.  The development shallowly embeds the relevant parts of the
source code:

* `io/binary_reader.py`  — the `BinaryReader` class over an in-memory byte
  stream (`List Nat`, one `Nat` per byte, values `< 256` for real inputs),
  with the `bytes_read` counter threaded explicitly;
* `utils/coordinates.py` — the coordinate records and `CoordinateConverter`
  (Python `//` and `%` are floor division and floor modulus, embedded as
  `Int.fdiv` / `Int.fmod`);
* `parsers/lot_header_parser.py`, `parsers/lot_pack_parser.py`,
  `parsers/tile_def_parser.py` — the three binary parsers, with Python
  exceptions embedded as `Except` values (an error value carries the reader
  state at the moment the exception is raised, matching the mutated reader
  object that survives a Python exception);
* `processing/processors/map_processor.py` and `search_processor.py` — the
  search pipeline, with the filesystem abstracted into the parse results it
  would deliver and an explicit flag recording whether the pack file was
  opened.

Dictionaries are embedded as association lists, Python `None` as `Option`,
and Python `str` values produced by `BinaryReader.read_string` as Lean
`String`s (that method decodes byte-by-byte as UTF-8, so every string it can
produce is pure ASCII; a byte `≥ 0x80` raises `UnicodeDecodeError`).
-/

/-! ## io/binary_reader.py -/

/-- State of a `BinaryReader`: the bytes not yet consumed from the underlying
stream, and the running `bytes_read` counter maintained by the class. -/
structure BinaryReader where
  data : List Nat
  bytes_read : Nat
deriving Repr, DecidableEq

namespace BinaryReader

/-- Python `read_byte`: `bytes_read += 1; data = self.file.read(1);
return int.from_bytes(data)`.  At end of file `file.read(1)` returns the
empty bytes object and `int.from_bytes(b'')` is `0`. -/
def read_byte (r : BinaryReader) : Nat × BinaryReader :=
  (r.data.headD 0, ⟨r.data.drop 1, r.bytes_read + 1⟩)

/-- Python `read_bytes(count)`: `bytes_read += count; return self.file.read(count)`.
A short read returns whatever bytes remain, without any error. -/
def read_bytes (r : BinaryReader) (count : Nat) : List Nat × BinaryReader :=
  (r.data.take count, ⟨r.data.drop count, r.bytes_read + count⟩)

/-- Value of four bytes interpreted as a signed two's-complement 32-bit
integer, as `struct.unpack` does. -/
def toSigned32 (n : Nat) : Int :=
  if n < 2 ^ 31 then (n : Int) else (n : Int) - 2 ^ 32

/-- Python `read_int32(big_endian)`: reads 4 bytes and unpacks a signed
32-bit integer.  When fewer than 4 bytes remain, `struct.unpack` raises
`struct.error`; `bytes_read` has already been incremented by 4 and the file
cursor has advanced to end of stream, so the error carries that state. -/
def read_int32 (r : BinaryReader) (big_endian : Bool) :
    Except (String × BinaryReader) (Int × BinaryReader) :=
  let (bs, r') := r.read_bytes 4
  match bs with
  | [b0, b1, b2, b3] =>
    if big_endian then
      .ok (toSigned32 (((b0 * 256 + b1) * 256 + b2) * 256 + b3), r')
    else
      .ok (toSigned32 (((b3 * 256 + b2) * 256 + b1) * 256 + b0), r')
  | _ => .error ("struct.error: unpack requires a buffer of 4 bytes", r')

/-- Loop body of Python `read_string`: read one byte at a time, decode it as
UTF-8, stop at a newline.  A byte `≥ 0x80` is not valid UTF-8 on its own, so
`decode` raises `UnicodeDecodeError` there.  At end of file `file.read(1)`
decodes to the empty string, which never equals a newline, so the Python
loop does not terminate; the model reports that path as an error (no parser
in the repository relies on it). -/
def read_string_go : List Nat → Nat → List Char →
    Except (String × BinaryReader) (String × BinaryReader)
  | [], n, _ => .error ("read_string does not terminate at end of stream", ⟨[], n⟩)
  | b :: rest, n, acc =>
    if b == 10 then
      .ok (String.mk acc.reverse, ⟨rest, n + 1⟩)
    else if 128 ≤ b then
      .error ("UnicodeDecodeError: invalid start byte", ⟨rest, n + 1⟩)
    else
      read_string_go rest (n + 1) (Char.ofNat b :: acc)

/-- Python `read_string`: read characters until a newline, return the string
without the newline. -/
def read_string (r : BinaryReader) :
    Except (String × BinaryReader) (String × BinaryReader) :=
  read_string_go r.data r.bytes_read []

end BinaryReader

/-! ## models/coordinates and utils/coordinates.py -/

/-- Absolute position in the game world (`WorldCoord`). -/
structure WorldCoord where
  x : Int
  y : Int
  z : Int
deriving Repr, DecidableEq

/-- Index of a 300x300 cell (`CellCoord`). -/
structure CellCoord where
  x : Int
  y : Int
deriving Repr, DecidableEq

/-- Index of a 10x10 chunk (`ChunkCoord`). -/
structure ChunkCoord where
  x : Int
  y : Int
deriving Repr, DecidableEq

/-- Position within a cell (`LocalCellCoord`). -/
structure LocalCellCoord where
  x : Int
  y : Int
  z : Int
deriving Repr, DecidableEq

namespace CoordinateConverter

/-- Number of tiles in each dimension of a cell. -/
def CELL_SIZE : Int := 300

/-- Number of tiles in each dimension of a chunk. -/
def CHUNK_SIZE : Int := 10

/-- Number of chunks in each dimension of a cell, `CELL_SIZE // CHUNK_SIZE`. -/
def CHUNKS_PER_CELL : Int := CELL_SIZE.fdiv CHUNK_SIZE

/-- Python `world_to_cell`: cell index by floor division, local position by
floor modulus, `z` passed through. -/
def world_to_cell (coord : WorldCoord) : CellCoord × LocalCellCoord :=
  (⟨coord.x.fdiv CELL_SIZE, coord.y.fdiv CELL_SIZE⟩,
   ⟨coord.x.fmod CELL_SIZE, coord.y.fmod CELL_SIZE, coord.z⟩)

/-- Python `cell_to_world`: scale the cell index by `CELL_SIZE` and add the
local offset when one is given.  A present dataclass instance is always
truthy in Python, so `if local:` tests exactly for `None`. -/
def cell_to_world (cell : CellCoord) (lcl : Option LocalCellCoord) : WorldCoord :=
  match lcl with
  | none => ⟨cell.x * CELL_SIZE, cell.y * CELL_SIZE, 0⟩
  | some l => ⟨cell.x * CELL_SIZE + l.x, cell.y * CELL_SIZE + l.y, l.z⟩

end CoordinateConverter

/-! ## parsers/lot_header_parser.py -/

/-- Configuration options of `LotHeaderParserConfig`. -/
structure LotHeaderParserConfig where
  strict_mode : Bool := true
  max_tile_count : Int := 100000
deriving Repr, DecidableEq

/-- Parsed `.lotheader` contents (`models/tiles/containers.py`, `LotHeader`). -/
structure LotHeader where
  version : Int
  tile_names : List String
  tile_count : Int
deriving Repr, DecidableEq

/-- Raise sites of `LotHeaderParserError` in `lot_header_parser.py`.  The
`unexpected` constructor is the final `except Exception` wrapper of `parse`,
which re-raises foreign exceptions (such as `struct.error` from a short
`read_int32`) as `LotHeaderParserError`. -/
inductive LotHeaderErr where
  | negative_tile_count (count : Int)
  | tile_count_exceeds_max (count max_count : Int)
  | name_read_error (index : Nat)
  | unexpected (msg : String)
deriving Repr, DecidableEq

namespace LotHeaderParser

/-- Python `_validate_tile_count`: negative counts and counts above
`max_tile_count` raise `LotHeaderParserError`. -/
def validate_tile_count (config : LotHeaderParserConfig) (count : Int) :
    Except LotHeaderErr Unit :=
  if count < 0 then .error (.negative_tile_count count)
  else if count > config.max_tile_count then
    .error (.tile_count_exceeds_max count config.max_tile_count)
  else .ok ()

/-- Loop of Python `_read_tile_names`.  Any exception raised inside the
loop — including the explicit `LotHeaderParserError` for an empty name — is
caught by the surrounding `except Exception` clause and re-raised as
`Error reading tile name at index len(tile_names)`; at that moment
`len(tile_names)` equals the number of names successfully appended so far. -/
def read_tile_names_go : Nat → Nat → BinaryReader → List String →
    Except (LotHeaderErr × BinaryReader) (List String × BinaryReader)
  | 0, _, r, acc => .ok (acc.reverse, r)
  | n + 1, done, r, acc =>
    match r.read_string with
    | .error (_, r') => .error (.name_read_error done, r')
    | .ok (name, r') =>
      if name = "" then .error (.name_read_error done, r')
      else read_tile_names_go n (done + 1) r' (name :: acc)

/-- Python `_read_tile_names`: read `count` newline-terminated names.  A
negative `count` makes `range(count)` empty. -/
def read_tile_names (count : Int) (r : BinaryReader) :
    Except (LotHeaderErr × BinaryReader) (List String × BinaryReader) :=
  read_tile_names_go count.toNat 0 r []

/-- Python `LotHeaderParser.parse`: read the version and the tile count,
validate the count in strict mode, then read the tile names. -/
def parse (config : LotHeaderParserConfig) (r : BinaryReader) :
    Except (LotHeaderErr × BinaryReader) (LotHeader × BinaryReader) :=
  match r.read_int32 false with
  | .error (m, r') => .error (.unexpected m, r')
  | .ok (version, r1) =>
    match r1.read_int32 false with
    | .error (m, r') => .error (.unexpected m, r')
    | .ok (tile_count, r2) =>
      match (if config.strict_mode then validate_tile_count config tile_count
             else .ok ()) with
      | .error e => .error (e, r2)
      | .ok _ =>
        match read_tile_names tile_count r2 with
        | .error e => .error e
        | .ok (tile_names, r3) => .ok (⟨version, tile_names, tile_count⟩, r3)

end LotHeaderParser

/-! ## models/tiles/base.py, models/world and parsers/lot_pack_parser.py -/

/-- Python substring test `needle in hay`, character by character. -/
def list_contains_seq [BEq α] (needle : List α) : List α → Bool
  | [] => needle.isEmpty
  | c :: rest => needle.isPrefixOf (c :: rest) || list_contains_seq needle rest

/-- Python `needle in hay` on strings. -/
def str_contains (needle hay : String) : Bool :=
  list_contains_seq needle.data hay.data

/-- Python `str.lower()`.  Every string the parsers produce is pure ASCII
(see `BinaryReader.read_string`), where `Char.toLower` agrees with Python. -/
def py_lower (s : String) : String :=
  ⟨s.data.map Char.toLower⟩

/-- Tile instance (`models/tiles/base.py`, `Tile`), restricted to the fields
the lot pack parser populates (the remaining fields keep their defaults). -/
structure Tile where
  tile_id : Int
  texture_name : String
deriving Repr, DecidableEq

/-- Grid square (`models/world/grid.py`, `GridSquare`). -/
structure GridSquare where
  position : LocalCellCoord
  floor_tiles : List Tile
  wall_tiles : List Tile
  object_tiles : List Tile
  room_id : Option Int
deriving Repr, DecidableEq

/-- Python `GridSquare(position)`: a fresh square with empty layers. -/
def GridSquare.new (position : LocalCellCoord) : GridSquare :=
  ⟨position, [], [], [], none⟩

/-- Python `GridSquare.add_tile(layer, tile)`: append to the layer's list;
an unknown layer number is silently ignored. -/
def GridSquare.add_tile (gs : GridSquare) (layer : Int) (tile : Tile) : GridSquare :=
  if layer = 0 then { gs with floor_tiles := gs.floor_tiles ++ [tile] }
  else if layer = 1 then { gs with wall_tiles := gs.wall_tiles ++ [tile] }
  else if layer = 2 then { gs with object_tiles := gs.object_tiles ++ [tile] }
  else gs

/-- Cell data (`models/world/cell.py`, `CellData`): the `squares` dictionary,
embedded as an association list in insertion order. -/
structure CellData where
  squares : List (LocalCellCoord × GridSquare)
deriving Repr, DecidableEq

namespace CellData

/-- Python `CellData.get_square`: return the stored square, or a fresh empty
one when absent; with `create_if_not_exists` the fresh square is also stored
(at the end, matching dict insertion order).  Returns the square together
with the possibly-extended cell data. -/
def get_square (cd : CellData) (position : LocalCellCoord)
    (create_if_not_exists : Bool) : GridSquare × CellData :=
  match cd.squares.lookup position with
  | some square => (square, cd)
  | none =>
    let square := GridSquare.new position
    if create_if_not_exists then (square, ⟨cd.squares ++ [(position, square)]⟩)
    else (square, cd)

/-- Store an updated square under a key that is already present.  In Python
the caller mutates the square in place through the alias returned by
`get_square`; the model replaces the stored value instead, which gives the
same dictionary once the mutations are done. -/
def set_square (cd : CellData) (position : LocalCellCoord) (square : GridSquare) :
    CellData :=
  ⟨cd.squares.map (fun p => if p.1 = position then (position, square) else p)⟩

end CellData

/-- State threaded through the lot pack parser: the reader and the
accumulated `cell_data`. -/
structure PackState where
  reader : BinaryReader
  cell_data : CellData
deriving Repr, DecidableEq

namespace LotPackParser

/-- Tile loop of `_read_tile_sequence`: Python `for _ in range(1, count)`
runs `count - 1` times; each iteration reads one `int32` tile ID and, when
the ID indexes into `tile_names`, appends a tile to the wall, floor or
object layer of the square according to the substrings of the lowered name;
IDs outside the table are dropped without a tile. -/
def read_tiles_go (tile_names : List String) :
    Nat → GridSquare → BinaryReader →
    Except (String × BinaryReader) (GridSquare × BinaryReader)
  | 0, gs, r => .ok (gs, r)
  | n + 1, gs, r =>
    match r.read_int32 false with
    | .error e => .error e
    | .ok (tile_id, r') =>
      if h : 0 ≤ tile_id ∧ tile_id < tile_names.length then
        let tile_name := tile_names.get ⟨tile_id.toNat, by omega⟩
        let tile : Tile := ⟨tile_id, tile_name⟩
        let gs' :=
          if str_contains "wall" (py_lower tile_name) then gs.add_tile 1 tile
          else if str_contains "floor" (py_lower tile_name) then gs.add_tile 0 tile
          else gs.add_tile 2 tile
        read_tiles_go tile_names n gs' r'
      else
        read_tiles_go tile_names n gs r'

/-- Python `_read_tile_sequence`.  Reads the `count` for the position.
`count == -1` is the sparse-skip marker: one further `int32 skip_count` is
read and `skip_count - 1` is returned.  `count <= 0` returns with nothing
further read.  Otherwise the room ID is read only when `count > 1`, the
square for the position is fetched with `create_if_not_exists=True`, its
`room_id` is set when a room ID was read, and `count - 1` tile IDs are
processed.  The square mutated in place in Python is stored back at the
end here. -/
def read_tile_sequence (tile_names : List String) (position : LocalCellCoord)
    (s : PackState) :
    Except (String × BinaryReader) (Option Int × PackState) :=
  match s.reader.read_int32 false with
  | .error e => .error e
  | .ok (count, r1) =>
    if count = -1 then
      match r1.read_int32 false with
      | .error e => .error e
      | .ok (skip_count, r2) => .ok (some (skip_count - 1), ⟨r2, s.cell_data⟩)
    else if count ≤ 0 then
      .ok (none, ⟨r1, s.cell_data⟩)
    else
      match (if count > 1 then (r1.read_int32 false).map (fun p => (some p.1, p.2))
             else .ok (none, r1)) with
      | .error e => .error e
      | .ok (room_id, r2) =>
        let gc := s.cell_data.get_square position true
        let gs1 := match room_id with
          | some rid => { gc.1 with room_id := some rid }
          | none => gc.1
        match read_tiles_go tile_names (count - 1).toNat gs1 r2 with
        | .error e => .error e
        | .ok (gs2, r3) => .ok (none, ⟨r3, gc.2.set_square position gs2⟩)

/-- Position walk of `_parse_chunk`: `z` outermost over `range(8)`, then `x`
and `y` over `range(CHUNK_SIZE)`, with the chunk-local skip counter.  A
positive counter consumes the position without reading any byte; otherwise
a tile sequence is read and its result (`None` mapped to 0) becomes the new
counter. -/
def parse_chunk_go (tile_names : List String) :
    List LocalCellCoord → Int → PackState →
    Except (String × BinaryReader) PackState
  | [], _, s => .ok s
  | position :: rest, skip_count, s =>
    if 0 < skip_count then
      parse_chunk_go tile_names rest (skip_count - 1) s
    else
      match read_tile_sequence tile_names position s with
      | .error e => .error e
      | .ok (res, s') => parse_chunk_go tile_names rest (res.getD 0) s'

/-- The 800 positions of a chunk in iteration order, translated by the chunk
base coordinates. -/
def chunk_positions (chunk_base_x chunk_base_y : Int) : List LocalCellCoord :=
  (List.range 8).flatMap (fun z =>
    (List.range 10).flatMap (fun x =>
      (List.range 10).map (fun y =>
        ⟨chunk_base_x + (x : Int), chunk_base_y + (y : Int), (z : Int)⟩)))

/-- Python `_parse_chunk`: a chunk without a recorded offset is skipped
entirely; otherwise the reader seeks to the chunk's offset in the file and
the position walk starts with `skip_count = 0`. -/
def parse_chunk (tile_names : List String) (file : List Nat)
    (chunk_offsets : List (ChunkCoord × Int)) (chunk_coord : ChunkCoord)
    (s : PackState) : Except (String × BinaryReader) PackState :=
  match chunk_offsets.lookup chunk_coord with
  | none => .ok s
  | some position =>
    parse_chunk_go tile_names
      (chunk_positions (chunk_coord.x * CoordinateConverter.CHUNK_SIZE)
        (chunk_coord.y * CoordinateConverter.CHUNK_SIZE))
      0
      ⟨⟨file.drop position.toNat, s.reader.bytes_read⟩, s.cell_data⟩

end LotPackParser

/-! ## parsers/tile_def_parser.py and processing/processors/tile_processor.py -/

/-- Configuration of the tile definition parser (`TileDefParserConfig`). -/
structure TileDefParserConfig where
  legacy_id_mode : Bool := false
deriving Repr, DecidableEq

/-- Tile property (`models/tiles/base.py`, `TileProperty`). -/
structure TileProperty where
  name : String
  value : String
deriving Repr, DecidableEq

/-- Tile definition (`models/tiles/definitions.py`, `TileDefinition`), the
fields the TDEF parser populates.  The `properties` dictionary is an
association list in insertion order. -/
structure TileDefinition where
  sprite_id : Int
  name : String
  tilesheet_name : String
  properties : List (String × TileProperty)
deriving Repr, DecidableEq

/-- Tilesheet (`models/tiles/containers.py`, `Tilesheet`). -/
structure Tilesheet where
  name : String
  image_name : String
  width_tiles : Int
  height_tiles : Int
  tilesheet_number : Int
  tiles : List (Nat × TileDefinition)
deriving Repr, DecidableEq

/-- Python `dict` update: an existing key keeps its place and gets the new
value, a new key is appended. -/
def dict_insert [DecidableEq κ] (d : List (κ × β)) (k : κ) (v : β) :
    List (κ × β) :=
  if (d.lookup k).isSome then
    d.map (fun p => if p.1 = k then (k, v) else p)
  else d ++ [(k, v)]

/-- Characters of the first piece of Python `text.split(sep)`: everything
before the first separator, or the whole text when the separator is absent. -/
def split_head (sep : Char) : List Char → List Char
  | [] => []
  | c :: rest => if c = sep then [] else c :: split_head sep rest

/-- Decimal digit accumulator for the model of Python `int(text)`. -/
def py_digits_go : List Char → Nat → Option Nat
  | [], acc => some acc
  | c :: rest, acc =>
    if c.isDigit then py_digits_go rest (acc * 10 + (c.toNat - 48))
    else none

/-- Digits-only part of Python `int(text)`: at least one decimal digit. -/
def py_digits : List Char → Option Nat
  | [] => none
  | c :: rest => py_digits_go (c :: rest) 0

/-- Python `int(text)` for the strings that appear as file-name prefixes:
an optional sign followed by decimal digits (Python additionally strips
surrounding whitespace and allows digit-group underscores, which no tile
file name uses); `none` models the `ValueError` for anything else. -/
def py_int_of_chars : List Char → Option Int
  | '-' :: rest => (py_digits rest).map (fun n => -(n : Int))
  | '+' :: rest => (py_digits rest).map (fun n => (n : Int))
  | cs => (py_digits cs).map (fun n => (n : Int))

/-- Decimal rendering of a natural number (Python `str` inside the f-string
`f"\x7bname\x7d_\x7btile_index\x7d"`), with fuel for structural recursion. -/
def nat_chars_go : Nat → Nat → List Char → List Char
  | 0, _, acc => acc
  | fuel + 1, n, acc =>
    let d := Char.ofNat (48 + n % 10)
    if n < 10 then d :: acc
    else nat_chars_go fuel (n / 10) (d :: acc)

/-- Decimal string of a natural number. -/
def py_str_of_nat (n : Nat) : String :=
  ⟨nat_chars_go (n + 1) n []⟩

namespace TileDefParser

/-- Python `_determine_file_number`: `int` of the part of the file stem
before the first underscore, falling back to 0 with a warning when the
conversion fails. -/
def determine_file_number (stem : String) : Int :=
  match py_int_of_chars (split_head '_' stem.data) with
  | some n => n
  | none => 0

/-- Python `_generate_sprite_id`: the legacy formula when `legacy_id_mode`
is set or the file number is below 2, the 512-based formula otherwise. -/
def generate_sprite_id (config : TileDefParserConfig) (file_number : Int)
    (tilesheet_number tile_index : Int) : Int :=
  if config.legacy_id_mode ∨ file_number < 2 then
    file_number * 100 * 1000 + 10000 + tilesheet_number * 1000 + tile_index
  else
    file_number * 512 * 512 + tilesheet_number * 512 + tile_index

/-- Sprite ID produced by a `TileDefParser` built with the default
configuration on a file with the given stem, as in
`TileDefParser(reader).parse()`. -/
def sprite_id_for_stem (stem : String) (tilesheet_number tile_index : Int) : Int :=
  generate_sprite_id {} (determine_file_number stem) tilesheet_number tile_index

/-- Loop of Python `_parse_properties`: `property_count` pairs of
newline-terminated strings, stored in the `properties` dict. -/
def parse_properties_go : Nat → List (String × TileProperty) → BinaryReader →
    Except (String × BinaryReader) (List (String × TileProperty) × BinaryReader)
  | 0, properties, r => .ok (properties, r)
  | n + 1, properties, r =>
    match r.read_string with
    | .error e => .error e
    | .ok (name, r1) =>
      match r1.read_string with
      | .error e => .error e
      | .ok (value, r2) =>
        parse_properties_go n (dict_insert properties name ⟨name, value⟩) r2

/-- Python `_parse_properties`: an `int32` count, then that many key/value
string pairs (a negative count makes `range` empty). -/
def parse_properties (r : BinaryReader) :
    Except (String × BinaryReader) (List (String × TileProperty) × BinaryReader) :=
  match r.read_int32 false with
  | .error e => .error e
  | .ok (property_count, r1) => parse_properties_go property_count.toNat [] r1

/-- Tile loop of Python `_parse_tilesheet` over
`for tile_index in range(num_tiles)`, carrying the parser's
`tile_definitions` dict and the sheet's `tiles` dict.  On a duplicate
sprite ID the code logs a warning and `continue`s — before the call to
`_parse_properties`, so the duplicate tile's property list stays in the
stream. -/
def parse_tilesheet_tiles (config : TileDefParserConfig) (file_number : Int)
    (sheet_name : String) (tilesheet_number : Int) :
    Nat → Nat → List (Int × TileDefinition) → List (Nat × TileDefinition) →
    BinaryReader →
    Except (String × BinaryReader)
      (List (Int × TileDefinition) × List (Nat × TileDefinition) × BinaryReader)
  | 0, _, tile_definitions, sheet_tiles, r => .ok (tile_definitions, sheet_tiles, r)
  | n + 1, tile_index, tile_definitions, sheet_tiles, r =>
    let sprite_id :=
      generate_sprite_id config file_number tilesheet_number tile_index
    if (tile_definitions.lookup sprite_id).isSome then
      parse_tilesheet_tiles config file_number sheet_name tilesheet_number
        n (tile_index + 1) tile_definitions sheet_tiles r
    else
      match parse_properties r with
      | .error e => .error e
      | .ok (properties, r1) =>
        let tile_name := sheet_name ++ "_" ++ py_str_of_nat tile_index
        let tile_def : TileDefinition :=
          ⟨sprite_id, tile_name, sheet_name, properties⟩
        parse_tilesheet_tiles config file_number sheet_name tilesheet_number
          n (tile_index + 1) (dict_insert tile_definitions sprite_id tile_def)
          (dict_insert sheet_tiles tile_index tile_def) r1

/-- Python `_parse_tilesheet`: two strings, four `int32`s, then the tile
loop starting at tile index 0. -/
def parse_tilesheet (config : TileDefParserConfig) (file_number : Int)
    (tile_definitions : List (Int × TileDefinition)) (r : BinaryReader) :
    Except (String × BinaryReader)
      (Tilesheet × List (Int × TileDefinition) × BinaryReader) :=
  match r.read_string with
  | .error e => .error e
  | .ok (name, r1) =>
    match r1.read_string with
    | .error e => .error e
    | .ok (image_name, r2) =>
      match r2.read_int32 false with
      | .error e => .error e
      | .ok (width_tiles, r3) =>
        match r3.read_int32 false with
        | .error e => .error e
        | .ok (height_tiles, r4) =>
          match r4.read_int32 false with
          | .error e => .error e
          | .ok (tilesheet_number, r5) =>
            match r5.read_int32 false with
            | .error e => .error e
            | .ok (num_tiles, r6) =>
              match parse_tilesheet_tiles config file_number name
                  tilesheet_number num_tiles.toNat 0 tile_definitions [] r6 with
              | .error e => .error e
              | .ok (tile_definitions', sheet_tiles, r7) =>
                .ok (⟨name, image_name, width_tiles, height_tiles,
                      tilesheet_number, sheet_tiles⟩, tile_definitions', r7)

end TileDefParser

namespace TileProcessor

/-- Python `TileProcessor._extract_file_number`: `int` of the stem's first
`_`-separated piece, `None` when that fails. -/
def extract_file_number (stem : String) : Option Int :=
  py_int_of_chars (split_head '_' stem.data)

/-- Configuration built by `TileProcessor.process_tile_file`:
`legacy_id_mode = (file_number < 2)` when a file number was extracted,
`False` otherwise. -/
def config_for_stem (stem : String) : TileDefParserConfig :=
  match extract_file_number stem with
  | some file_number => ⟨decide (file_number < 2)⟩
  | none => ⟨false⟩

end TileProcessor

/-! ## processing/processors/map_processor.py and search_processor.py -/

/-- Map cell (`models/world/map_cell.py`, `MapCell`): the parsed-data slots;
the two file paths are abstracted away together with the filesystem. -/
structure MapCell where
  position : CellCoord
  header : Option LotHeader
  data : Option CellData
deriving Repr, DecidableEq

/-- A cell together with what the filesystem would yield for it:
`header_result` is what `_parse_header(cell.header_path)` returns and
`pack_result` what `_parse_pack(cell.pack_path, ...)` returns (`none` for
any parse or I/O failure, which those helpers swallow). -/
structure CellEnv where
  cell : MapCell
  header_result : Option LotHeader
  pack_result : Option CellData
deriving Repr, DecidableEq

/-- Result of `process_cell_for_search`: the returned locations, whether
`_parse_pack` was invoked (the pack file opened), and the cell as left
behind by the `finally` block. -/
structure SearchOutcome where
  found : List (LocalCellCoord × String)
  pack_opened : Bool
  cell : MapCell
deriving Repr, DecidableEq

namespace MapProcessor

/-- Search iteration order of `process_cell_for_search`: `z` in `range(8)`,
then `x` and `y` in `range(300)`. -/
def search_positions : List LocalCellCoord :=
  (List.range 8).flatMap (fun z =>
    (List.range 300).flatMap (fun x =>
      (List.range 300).map (fun y =>
        ⟨(x : Int), (y : Int), (z : Int)⟩)))

/-- Inner search of `process_cell_for_search`: every position's square
(`get_square` without creation), its floor, wall and object tiles in that
order, keeping tiles whose lowered texture name is in the query list. -/
def search_squares (cell_data : CellData) (tile_names_lower : List String) :
    List (LocalCellCoord × String) :=
  search_positions.flatMap (fun position =>
    let gs := (cell_data.get_square position false).1
    ((gs.floor_tiles ++ gs.wall_tiles ++ gs.object_tiles).filter
      (fun tile => tile_names_lower.contains (py_lower tile.texture_name))).map
      (fun tile => (position, tile.texture_name)))

/-- Python `process_cell_for_search`.  Parse only the header; when none of
the query names occurs among the lowered header names, return empty without
touching the pack.  Otherwise parse the pack (recorded in `pack_opened`)
and search it.  The `finally` block clears `cell.header` and `cell.data` on
every path.  The model raises no exceptions: the swallowed parse failures
are already the `none` results, and the search itself cannot raise. -/
def process_cell_for_search (env : CellEnv) (tile_names_lower : List String) :
    SearchOutcome :=
  let final_cell : MapCell := { env.cell with header := none, data := none }
  match env.header_result with
  | none => ⟨[], false, final_cell⟩
  | some header =>
    if ! tile_names_lower.any
        (fun q => (header.tile_names.map py_lower).contains q) then
      ⟨[], false, final_cell⟩
    else
      match env.pack_result with
      | none => ⟨[], true, final_cell⟩
      | some cell_data =>
        ⟨search_squares cell_data tile_names_lower, true, final_cell⟩

/-- Sequential `SearchProcessor.search_tiles`: lower the query once, run
`process_cell_for_search` on every cell, and yield the pairs with a
non-empty result.  The first component collects every processed cell as the
loop leaves it. -/
def search_tiles (cells : List CellEnv) (tile_names : List String) :
    List MapCell × List (MapCell × List (LocalCellCoord × String)) :=
  let tile_names_lower := tile_names.map py_lower
  let outcomes := cells.map (fun env => process_cell_for_search env tile_names_lower)
  (outcomes.map SearchOutcome.cell,
   (outcomes.filter (fun o => ! o.found.isEmpty)).map (fun o => (o.cell, o.found)))

end MapProcessor

/-! ## Theorems -/

/-- C9 counterexample: `read_bytes` does not fail on a short read and does
not return the requested number of bytes.  On a stream holding only two
bytes, `read_bytes(4)` returns a 2-byte result (there is no error channel in
its type at all), refuting the claim that it returns exactly `n` bytes with
an `UnexpectedEof` failure on short reads. -/
theorem c9_short_read_no_error :
    ¬ ((BinaryReader.read_bytes ⟨[7, 7], 0⟩ 4).1.length = 4) := by
  decide

/-- C9 amended: `read_bytes(count)` returns the next `min count available`
bytes of the stream — exactly `count` bytes when enough remain, the shorter
remainder otherwise, never an error — and always advances `bytes_read` by
the full `count`. -/
theorem c9_read_bytes_returns_min (r : BinaryReader) (count : Nat) :
    (r.read_bytes count).1.length = min count r.data.length ∧
    (r.read_bytes count).2.bytes_read = r.bytes_read + count ∧
    (r.read_bytes count).2.data = r.data.drop count := by
  refine ⟨?_, rfl, rfl⟩
  simp [BinaryReader.read_bytes]

/-- C10: at end of file `read_byte` returns `0` rather than raising, and
still increments `bytes_read` by one; a genuine `0x00` byte also returns
`0`, so the two are indistinguishable through `read_byte`. -/
theorem c10_read_byte_eof_zero (r r' : BinaryReader) (t : List Nat)
    (heof : r.data = []) (hzero : r'.data = 0 :: t) :
    r.read_byte = (0, ⟨[], r.bytes_read + 1⟩) ∧
    (r'.read_byte).1 = 0 ∧ (r'.read_byte).2.bytes_read = r'.bytes_read + 1 := by
  simp [BinaryReader.read_byte, heof, hzero]

/-- C10 witness: concrete empty stream and concrete stream starting with a
zero byte evaluate as the theorem states. -/
theorem c10_read_byte_eof_zero_witness :
    BinaryReader.read_byte ⟨[], 5⟩ = (0, ⟨[], 6⟩) ∧
    (BinaryReader.read_byte ⟨[0, 9], 0⟩).1 = 0 ∧
    (BinaryReader.read_byte ⟨[0, 9], 0⟩).2.bytes_read = 1 :=
  c10_read_byte_eof_zero ⟨[], 5⟩ ⟨[0, 9], 0⟩ [9] rfl rfl

/-- C4: converting a cell index plus an in-range local position to world
coordinates and back round-trips, including for negative cell indices,
because the conversions use floor-division and floor-modulus semantics. -/
theorem c4_world_cell_roundtrip (c : CellCoord) (l : LocalCellCoord)
    (hx0 : 0 ≤ l.x) (hx : l.x < 300) (hy0 : 0 ≤ l.y) (hy : l.y < 300)
    (hz0 : 0 ≤ l.z) (hz : l.z < 8) :
    CoordinateConverter.world_to_cell (CoordinateConverter.cell_to_world c (some l)) = (c, l) := by
  obtain ⟨cx, cy⟩ := c
  obtain ⟨lx, ly, lz⟩ := l
  simp only [CoordinateConverter.cell_to_world, CoordinateConverter.world_to_cell,
    CoordinateConverter.CELL_SIZE, Prod.mk.injEq, CellCoord.mk.injEq,
    LocalCellCoord.mk.injEq]
  rw [Int.fdiv_eq_ediv _ (by norm_num), Int.fdiv_eq_ediv _ (by norm_num),
    Int.fmod_eq_emod _ (by norm_num), Int.fmod_eq_emod _ (by norm_num)]
  simp only [and_true] at hx0 hx hy0 hy hz0 hz ⊢
  omega

/-- C4 witness: a concrete round-trip through a negative cell index. -/
theorem c4_world_cell_roundtrip_witness :
    CoordinateConverter.world_to_cell
      (CoordinateConverter.cell_to_world ⟨-3, 5⟩ (some ⟨299, 0, 7⟩)) =
      (⟨-3, 5⟩, ⟨299, 0, 7⟩) :=
  c4_world_cell_roundtrip ⟨-3, 5⟩ ⟨299, 0, 7⟩ (by decide) (by decide)
    (by decide) (by decide) (by decide) (by decide)

/-- Helper: a successful `read_int32` consumes exactly 4 bytes and advances
`bytes_read` by 4. -/
theorem read_int32_ok_state (r : BinaryReader) (be : Bool) (v : Int)
    (r' : BinaryReader) (h : r.read_int32 be = .ok (v, r')) :
    r' = ⟨r.data.drop 4, r.bytes_read + 4⟩ := by
  simp only [BinaryReader.read_int32, BinaryReader.read_bytes] at h
  split at h
  · split at h <;>
      (simp only [Except.ok.injEq, Prod.mk.injEq] at h; exact h.2.symm)
  · simp at h

/-- C6: in strict mode, a tile count below zero or above `max_tile_count`
makes `LotHeaderParser.parse` fail with one of the two invalid-tile-count
errors, and the failing reader state is exactly the state after the two
header integers: 8 bytes consumed, the name table untouched. -/
theorem c6_strict_invalid_tile_count (config : LotHeaderParserConfig)
    (r r1 r2 : BinaryReader) (version tile_count : Int)
    (hstrict : config.strict_mode = true)
    (hv : r.read_int32 false = .ok (version, r1))
    (hc : r1.read_int32 false = .ok (tile_count, r2))
    (hbad : tile_count < 0 ∨ config.max_tile_count < tile_count) :
    (∃ e, (e = LotHeaderErr.negative_tile_count tile_count ∨
           e = LotHeaderErr.tile_count_exceeds_max tile_count config.max_tile_count) ∧
      LotHeaderParser.parse config r = .error (e, r2)) ∧
    r2.bytes_read = r.bytes_read + 8 ∧ r2.data = r.data.drop 8 := by
  have h1 := read_int32_ok_state r false version r1 hv
  have h2 := read_int32_ok_state r1 false tile_count r2 hc
  refine ⟨?_, ?_, ?_⟩
  · by_cases hneg : tile_count < 0
    · exact ⟨.negative_tile_count tile_count, .inl rfl, by
        simp [LotHeaderParser.parse, hv, hc, hstrict,
          LotHeaderParser.validate_tile_count, if_pos hneg]⟩
    · have hgt : config.max_tile_count < tile_count := by
        rcases hbad with h | h
        · omega
        · exact h
      exact ⟨.tile_count_exceeds_max tile_count config.max_tile_count, .inr rfl, by
        simp [LotHeaderParser.parse, hv, hc, hstrict,
          LotHeaderParser.validate_tile_count, if_neg hneg, hgt]⟩
  · rw [h2, h1]
  · rw [h2, h1]
    simp [List.drop_drop]

/-- C6 witness: the spec's failing bytes `01 00 00 00 FF FF FF FF` under the
default configuration — version 1, tile count −1 — produce the invalid-count
error with exactly the 8 header bytes consumed. -/
theorem c6_strict_invalid_tile_count_witness :
    (∃ e, (e = LotHeaderErr.negative_tile_count (-1) ∨
           e = LotHeaderErr.tile_count_exceeds_max (-1) 100000) ∧
      LotHeaderParser.parse ⟨true, 100000⟩ ⟨[1, 0, 0, 0, 255, 255, 255, 255], 0⟩ =
        .error (e, ⟨[], 8⟩)) ∧
    (⟨[], 8⟩ : BinaryReader).bytes_read = (⟨[1, 0, 0, 0, 255, 255, 255, 255], 0⟩ : BinaryReader).bytes_read + 8 ∧
    (⟨[], 8⟩ : BinaryReader).data = (⟨[1, 0, 0, 0, 255, 255, 255, 255], 0⟩ : BinaryReader).data.drop 8 :=
  c6_strict_invalid_tile_count ⟨true, 100000⟩
    ⟨[1, 0, 0, 0, 255, 255, 255, 255], 0⟩ ⟨[255, 255, 255, 255], 4⟩ ⟨[], 8⟩
    1 (-1) rfl rfl rfl (by decide)

/-- Helper: with at least 4 bytes available, `read_int32` succeeds and its
resulting state is the 4-byte advance. -/
theorem read_int32_of_length (r : BinaryReader) (be : Bool)
    (h : 4 ≤ r.data.length) :
    ∃ v, r.read_int32 be = .ok (v, ⟨r.data.drop 4, r.bytes_read + 4⟩) := by
  obtain ⟨d, n⟩ := r
  rcases d with _ | ⟨b0, d⟩
  · simp at h
  rcases d with _ | ⟨b1, d⟩
  · simp at h
  rcases d with _ | ⟨b2, d⟩
  · simp at h
  rcases d with _ | ⟨b3, d⟩
  · simp at h
  cases be <;> exact ⟨_, rfl⟩

/-- Helper: when the stream holds at least `4 * n` bytes, the tile loop of
`_read_tile_sequence` runs to completion, consuming exactly `4 * n` bytes,
and never changes the square's `room_id`. -/
theorem read_tiles_go_state (tile_names : List String) (n : Nat)
    (gs : GridSquare) (r : BinaryReader) (h : 4 * n ≤ r.data.length) :
    ∃ gs', LotPackParser.read_tiles_go tile_names n gs r =
        .ok (gs', ⟨r.data.drop (4 * n), r.bytes_read + 4 * n⟩) ∧
      gs'.room_id = gs.room_id := by
  induction n generalizing gs r with
  | zero => exact ⟨gs, rfl, rfl⟩
  | succ n ih =>
    obtain ⟨v, hv⟩ := read_int32_of_length r false (by omega)
    have hlen : 4 * n ≤ (r.data.drop 4).length := by
      simp only [List.length_drop]
      omega
    simp only [LotPackParser.read_tiles_go, hv]
    have hstate : ∀ m : Nat,
        ((r.data.drop 4).drop (4 * n) = r.data.drop (4 * (n + 1))) ∧
        (m + 4 + 4 * n = m + 4 * (n + 1)) := by
      intro m
      constructor
      · rw [List.drop_drop]
        congr 1
        omega
      · omega
    split
    · obtain ⟨gs', hrec, hroom⟩ := ih _ ⟨r.data.drop 4, r.bytes_read + 4⟩ hlen
      refine ⟨gs', ?_, ?_⟩
      · rw [hrec]
        obtain ⟨h1, h2⟩ := hstate r.bytes_read
        simp only at h1 h2 ⊢
        rw [h1, h2]
      · rw [hroom]
        split <;> simp [GridSquare.add_tile]
        split <;> simp
    · obtain ⟨gs', hrec, hroom⟩ := ih gs ⟨r.data.drop 4, r.bytes_read + 4⟩ hlen
      refine ⟨gs', ?_, hroom⟩
      rw [hrec]
      obtain ⟨h1, h2⟩ := hstate r.bytes_read
      simp only at h1 h2 ⊢
      rw [h1, h2]

/-- C1 counterexample: at a position whose count is `1`, the decoder reads
no further `int32` at all.  On the 8-byte stream `01 00 00 00 07 00 00 00`
(count `1`, then one candidate int), `_read_tile_sequence` returns with only
the 4 count bytes consumed: the bytes `07 00 00 00` are still unread, no
room ID and no tile were recorded — only an empty square was created.  The
claim demands exactly one further int32 (a tile ID) for `count == 1`, which
would leave `bytes_read` at 8. -/
theorem c1_count_one_reads_nothing :
    LotPackParser.read_tile_sequence [] ⟨0, 0, 0⟩
        ⟨⟨[1, 0, 0, 0, 7, 0, 0, 0], 0⟩, ⟨[]⟩⟩ =
      .ok (none, ⟨⟨[7, 0, 0, 0], 4⟩,
        ⟨[(⟨0, 0, 0⟩, GridSquare.new ⟨0, 0, 0⟩)]⟩⟩) ∧
    (⟨[7, 0, 0, 0], 4⟩ : BinaryReader).bytes_read ≠
      (⟨[1, 0, 0, 0, 7, 0, 0, 0], 0⟩ : BinaryReader).bytes_read + 8 :=
  ⟨rfl, by decide⟩

/-- C1 amended: when the count at a position is greater than 1, the stream
contains exactly `count` further `int32`s — the first is the room ID, which
ends up as the square's `room_id`, and the remaining `count − 1` are
processed as tile IDs — so exactly `4 * count` further bytes are consumed.
When the count is exactly 1, no further `int32` is consumed: there is no
room ID and no tile ID, and the position merely gets an empty grid square. -/
theorem c1_tile_sequence_layout (tile_names : List String)
    (position : LocalCellCoord) (s : PackState) (count : Int)
    (r1 : BinaryReader)
    (hcount : s.reader.read_int32 false = .ok (count, r1)) :
    (count = 1 →
      LotPackParser.read_tile_sequence tile_names position s =
        .ok (none, ⟨r1, (s.cell_data.get_square position true).2.set_square
          position (s.cell_data.get_square position true).1⟩)) ∧
    (1 < count → 4 * count.toNat ≤ r1.data.length →
      ∃ room gs',
        r1.read_int32 false = .ok (room, ⟨r1.data.drop 4, r1.bytes_read + 4⟩) ∧
        LotPackParser.read_tile_sequence tile_names position s =
          .ok (none, ⟨⟨r1.data.drop (4 * count.toNat),
                       r1.bytes_read + 4 * count.toNat⟩,
            (s.cell_data.get_square position true).2.set_square position gs'⟩) ∧
        gs'.room_id = some room) := by
  constructor
  · intro h1
    subst h1
    simp only [LotPackParser.read_tile_sequence, hcount]
    norm_num
    simp only [LotPackParser.read_tiles_go]
  · intro hgt hlen
    obtain ⟨room, hroom⟩ := read_int32_of_length r1 false (by omega)
    have hlen' : 4 * (count - 1).toNat ≤ (r1.data.drop 4).length := by
      simp only [List.length_drop]
      omega
    obtain ⟨gs', hloop, hroomid⟩ := read_tiles_go_state tile_names
      ((count - 1).toNat)
      { (s.cell_data.get_square position true).1 with room_id := some room }
      ⟨r1.data.drop 4, r1.bytes_read + 4⟩ hlen'
    simp only at hloop
    have h1 : (r1.data.drop 4).drop (4 * (count - 1).toNat) =
        r1.data.drop (4 * count.toNat) := by
      rw [List.drop_drop]
      congr 1
      omega
    have h2 : r1.bytes_read + 4 + 4 * (count - 1).toNat =
        r1.bytes_read + 4 * count.toNat := by omega
    rw [h1, h2] at hloop
    refine ⟨room, gs', hroom, ?_, by rw [hroomid]⟩
    have hne : count ≠ -1 := by omega
    have hle : ¬ count ≤ 0 := by omega
    simp only [LotPackParser.read_tile_sequence, hcount, if_neg hne,
      if_neg hle, gt_iff_lt, if_pos hgt, hroom, Except.map, hloop]

/-- C1 witness: count 2 followed by room ID 5 and one tile ID — exactly two
further int32s are consumed (8 bytes after the count) and the room ID is
recorded on the square. -/
theorem c1_tile_sequence_layout_witness :
    ∃ room gs',
      BinaryReader.read_int32 ⟨[5, 0, 0, 0, 9, 0, 0, 0], 4⟩ false =
        .ok (room, ⟨[9, 0, 0, 0], 8⟩) ∧
      LotPackParser.read_tile_sequence ["a"] ⟨0, 0, 0⟩
          ⟨⟨[2, 0, 0, 0, 5, 0, 0, 0, 9, 0, 0, 0], 0⟩, ⟨[]⟩⟩ =
        .ok (none, ⟨⟨[], 12⟩,
          (CellData.get_square ⟨[]⟩ ⟨0, 0, 0⟩ true).2.set_square ⟨0, 0, 0⟩ gs'⟩) ∧
      gs'.room_id = some room :=
  (c1_tile_sequence_layout ["a"] ⟨0, 0, 0⟩
    ⟨⟨[2, 0, 0, 0, 5, 0, 0, 0, 9, 0, 0, 0], 0⟩, ⟨[]⟩⟩ 2
    ⟨[5, 0, 0, 0, 9, 0, 0, 0], 4⟩ rfl).2 (by decide) (by decide)

/-- C3: the sparse-skip protocol of the lot pack decoder.  First conjunct:
on a skip marker (`count == -1`) the tile sequence reads exactly one further
`int32 skip_count` — 8 bytes total for the current position — returns
`skip_count - 1`, and leaves the cell data untouched.  Second conjunct:
while the chunk walk's counter is positive, a position is consumed with no
bytes read and no state change, the counter dropping by one.  Third
conjunct: a walk that hits the marker continues over the remaining
positions with counter `skip_count - 1`, so the current position plus the
next `skip_count - 1` positions are exactly the skipped ones.  Fourth
conjunct: each chunk's walk starts with the counter reset to 0, so the
counter is chunk-local. -/
theorem c3_sparse_skip_behavior :
    (∀ (tile_names : List String) (position : LocalCellCoord) (s : PackState)
        (skip_count : Int) (r1 r2 : BinaryReader),
        s.reader.read_int32 false = .ok (-1, r1) →
        r1.read_int32 false = .ok (skip_count, r2) →
        LotPackParser.read_tile_sequence tile_names position s =
          .ok (some (skip_count - 1), ⟨r2, s.cell_data⟩) ∧
        r2.bytes_read = s.reader.bytes_read + 8 ∧
        r2.data = s.reader.data.drop 8) ∧
    (∀ (tile_names : List String) (position : LocalCellCoord)
        (rest : List LocalCellCoord) (skip_count : Int) (s : PackState),
        0 < skip_count →
        LotPackParser.parse_chunk_go tile_names (position :: rest) skip_count s =
          LotPackParser.parse_chunk_go tile_names rest (skip_count - 1) s) ∧
    (∀ (tile_names : List String) (position : LocalCellCoord)
        (rest : List LocalCellCoord) (s : PackState) (skip_count : Int)
        (r1 r2 : BinaryReader),
        s.reader.read_int32 false = .ok (-1, r1) →
        r1.read_int32 false = .ok (skip_count, r2) →
        LotPackParser.parse_chunk_go tile_names (position :: rest) 0 s =
          LotPackParser.parse_chunk_go tile_names rest (skip_count - 1)
            ⟨r2, s.cell_data⟩) ∧
    (∀ (tile_names : List String) (file : List Nat)
        (chunk_offsets : List (ChunkCoord × Int)) (chunk_coord : ChunkCoord)
        (s : PackState) (offset : Int),
        chunk_offsets.lookup chunk_coord = some offset →
        LotPackParser.parse_chunk tile_names file chunk_offsets chunk_coord s =
          LotPackParser.parse_chunk_go tile_names
            (LotPackParser.chunk_positions
              (chunk_coord.x * CoordinateConverter.CHUNK_SIZE)
              (chunk_coord.y * CoordinateConverter.CHUNK_SIZE))
            0 ⟨⟨file.drop offset.toNat, s.reader.bytes_read⟩, s.cell_data⟩) := by
  have marker : ∀ (tile_names : List String) (position : LocalCellCoord)
      (s : PackState) (skip_count : Int) (r1 r2 : BinaryReader),
      s.reader.read_int32 false = .ok (-1, r1) →
      r1.read_int32 false = .ok (skip_count, r2) →
      LotPackParser.read_tile_sequence tile_names position s =
        .ok (some (skip_count - 1), ⟨r2, s.cell_data⟩) := by
    intro tile_names position s skip_count r1 r2 hm hs
    simp only [LotPackParser.read_tile_sequence, hm]
    norm_num
    simp [hs]
  refine ⟨?_, ?_, ?_, ?_⟩
  · intro tile_names position s skip_count r1 r2 hm hs
    have h1 := read_int32_ok_state _ _ _ _ hm
    have h2 := read_int32_ok_state _ _ _ _ hs
    refine ⟨marker tile_names position s skip_count r1 r2 hm hs, ?_, ?_⟩
    · rw [h2, h1]
    · rw [h2, h1]
      simp [List.drop_drop]
  · intro tile_names position rest skip_count s h
    simp only [LotPackParser.parse_chunk_go, if_pos h]
  · intro tile_names position rest s skip_count r1 r2 hm hs
    have hmark := marker tile_names position s skip_count r1 r2 hm hs
    simp only [LotPackParser.parse_chunk_go, hmark]
    norm_num
  · intro tile_names file chunk_offsets chunk_coord s offset hlook
    simp only [LotPackParser.parse_chunk, hlook]

/-- C3 witness: concrete instances of all four conjuncts — a marker with
`skip_count = 3` consuming exactly 8 bytes, a positive counter consuming a
position without reading, the walk continuing with counter 2 after that
marker, and a chunk walk starting at counter 0 from its seeked offset. -/
theorem c3_sparse_skip_behavior_witness :
    (LotPackParser.read_tile_sequence [] ⟨0, 0, 0⟩
        ⟨⟨[255, 255, 255, 255, 3, 0, 0, 0], 0⟩, ⟨[]⟩⟩ =
        .ok (some 2, ⟨⟨[], 8⟩, ⟨[]⟩⟩) ∧
      (⟨[], 8⟩ : BinaryReader).bytes_read =
        (⟨[255, 255, 255, 255, 3, 0, 0, 0], 0⟩ : BinaryReader).bytes_read + 8 ∧
      (⟨[], 8⟩ : BinaryReader).data =
        (⟨[255, 255, 255, 255, 3, 0, 0, 0], 0⟩ : BinaryReader).data.drop 8) ∧
    (LotPackParser.parse_chunk_go [] [⟨0, 0, 0⟩] 2 ⟨⟨[], 0⟩, ⟨[]⟩⟩ =
      LotPackParser.parse_chunk_go [] [] 1 ⟨⟨[], 0⟩, ⟨[]⟩⟩) ∧
    (LotPackParser.parse_chunk_go [] [⟨0, 0, 0⟩] 0
        ⟨⟨[255, 255, 255, 255, 3, 0, 0, 0], 0⟩, ⟨[]⟩⟩ =
      LotPackParser.parse_chunk_go [] [] 2 ⟨⟨[], 8⟩, ⟨[]⟩⟩) ∧
    (LotPackParser.parse_chunk [] [1, 2, 3, 4, 5, 6] [(⟨0, 0⟩, 4)] ⟨0, 0⟩
        ⟨⟨[], 0⟩, ⟨[]⟩⟩ =
      LotPackParser.parse_chunk_go []
        (LotPackParser.chunk_positions
          ((⟨0, 0⟩ : ChunkCoord).x * CoordinateConverter.CHUNK_SIZE)
          ((⟨0, 0⟩ : ChunkCoord).y * CoordinateConverter.CHUNK_SIZE))
        0 ⟨⟨[5, 6], 0⟩, ⟨[]⟩⟩) :=
  ⟨c3_sparse_skip_behavior.1 [] ⟨0, 0, 0⟩
      ⟨⟨[255, 255, 255, 255, 3, 0, 0, 0], 0⟩, ⟨[]⟩⟩ 3
      ⟨[3, 0, 0, 0], 4⟩ ⟨[], 8⟩ rfl rfl,
   c3_sparse_skip_behavior.2.1 [] ⟨0, 0, 0⟩ [] 2 ⟨⟨[], 0⟩, ⟨[]⟩⟩ (by decide),
   c3_sparse_skip_behavior.2.2.1 [] ⟨0, 0, 0⟩ []
      ⟨⟨[255, 255, 255, 255, 3, 0, 0, 0], 0⟩, ⟨[]⟩⟩ 3
      ⟨[3, 0, 0, 0], 4⟩ ⟨[], 8⟩ rfl rfl,
   c3_sparse_skip_behavior.2.2.2 [] [1, 2, 3, 4, 5, 6] [(⟨0, 0⟩, 4)] ⟨0, 0⟩
      ⟨⟨[], 0⟩, ⟨[]⟩⟩ 4 rfl⟩

/-- C5: the sprite ID switch.  The legacy formula
`file_number*100*1000 + 10000 + tilesheet_number*1000 + tile_index` applies
when `legacy_id_mode` is forced or the file number is below 2, the
`file_number*512*512 + tilesheet_number*512 + tile_index` formula otherwise;
concretely a file with stem prefix `1_` yields sprite ID 112003 for
tilesheet 2, tile 3, and prefix `3_` yields 787459. -/
theorem c5_sprite_id_formulas :
    (∀ (config : TileDefParserConfig) (file_number tilesheet_number tile_index : Int),
        config.legacy_id_mode = true ∨ file_number < 2 →
        TileDefParser.generate_sprite_id config file_number tilesheet_number tile_index =
          file_number * 100 * 1000 + 10000 + tilesheet_number * 1000 + tile_index) ∧
    (∀ (config : TileDefParserConfig) (file_number tilesheet_number tile_index : Int),
        config.legacy_id_mode = false → 2 ≤ file_number →
        TileDefParser.generate_sprite_id config file_number tilesheet_number tile_index =
          file_number * 512 * 512 + tilesheet_number * 512 + tile_index) ∧
    TileDefParser.sprite_id_for_stem "1_CommercialTiles" 2 3 = 112003 ∧
    TileDefParser.sprite_id_for_stem "3_CommercialTiles" 2 3 = 787459 := by
  refine ⟨?_, ?_, by decide, by decide⟩
  · intro config file_number tilesheet_number tile_index h
    exact if_pos h
  · intro config file_number tilesheet_number tile_index hlegacy hge
    refine if_neg ?_
    simp [hlegacy]
    omega

/-- C5 witness: a forced legacy mode with file number 5 uses the legacy
formula, and file number 3 without it uses the 512-based formula. -/
theorem c5_sprite_id_formulas_witness :
    TileDefParser.generate_sprite_id ⟨true⟩ 5 2 3 =
      5 * 100 * 1000 + 10000 + 2 * 1000 + 3 ∧
    TileDefParser.generate_sprite_id ⟨false⟩ 3 2 3 =
      3 * 512 * 512 + 2 * 512 + 3 :=
  ⟨c5_sprite_id_formulas.1 ⟨true⟩ 5 2 3 (Or.inl rfl),
   c5_sprite_id_formulas.2.1 ⟨false⟩ 3 2 3 rfl (by decide)⟩

/-- C2, code bug: on a duplicate sprite ID the tile loop of
`_parse_tilesheet` hits `continue` before `_parse_properties`, so the
duplicate tile's property list is NOT consumed and the read cursor is left
misaligned.  First conjunct: with sprite ID 787456 (file 3, tilesheet 2,
tile 0) already defined, the loop returns with the reader byte-for-byte
unchanged even though a one-entry property list (count `01 00 00 00`, name
`a`, value `b`) sits in the stream.  Second conjunct: the same stream
without the prior definition consumes all 8 bytes for exactly that property
list, showing what alignment requires. -/
theorem c2_duplicate_skips_property_consumption :
    (TileDefParser.parse_tilesheet_tiles {} 3 "sheet" 2 1 0
        [(787456, ⟨787456, "prior_0", "prior", []⟩)] []
        ⟨[1, 0, 0, 0, 97, 10, 98, 10], 0⟩ =
      .ok ([(787456, ⟨787456, "prior_0", "prior", []⟩)], [],
        ⟨[1, 0, 0, 0, 97, 10, 98, 10], 0⟩)) ∧
    (TileDefParser.parse_tilesheet_tiles {} 3 "sheet" 2 1 0 [] []
        ⟨[1, 0, 0, 0, 97, 10, 98, 10], 0⟩ =
      .ok ([(787456, ⟨787456, "sheet_0", "sheet", [("a", ⟨"a", "b"⟩)]⟩)],
        [(0, ⟨787456, "sheet_0", "sheet", [("a", ⟨"a", "b"⟩)]⟩)],
        ⟨[], 8⟩)) :=
  ⟨rfl, rfl⟩

/-- C7: when the header parses but none of the query names occurs among the
lowered header tile names, `process_cell_for_search` returns the empty
result with the pack never opened (and the cell's slots cleared by the
`finally` block). -/
theorem c7_search_prunes_on_header (env : CellEnv) (header : LotHeader)
    (tile_names_lower : List String)
    (hheader : env.header_result = some header)
    (hdisjoint : ∀ q ∈ tile_names_lower,
      (header.tile_names.map py_lower).contains q = false) :
    MapProcessor.process_cell_for_search env tile_names_lower =
      ⟨[], false, { env.cell with header := none, data := none }⟩ := by
  have hany : tile_names_lower.any
      (fun q => (header.tile_names.map py_lower).contains q) = false := by
    rw [List.any_eq_false]
    intro q hq
    rw [hdisjoint q hq]
    simp
  simp only [MapProcessor.process_cell_for_search, hheader, hany,
    Bool.not_false, if_true]

/-- C7 witness: a header containing only `Floor_Tile` is pruned for the
query `unique_name_xyz` without the pack being opened, even though the pack
is present and parseable. -/
theorem c7_search_prunes_on_header_witness :
    MapProcessor.process_cell_for_search
        ⟨⟨⟨0, 0⟩, none, none⟩, some ⟨1, ["Floor_Tile"], 1⟩, some ⟨[]⟩⟩
        ["unique_name_xyz"] =
      ⟨[], false, ⟨⟨0, 0⟩, none, none⟩⟩ :=
  c7_search_prunes_on_header
    ⟨⟨⟨0, 0⟩, none, none⟩, some ⟨1, ["Floor_Tile"], 1⟩, some ⟨[]⟩⟩
    ⟨1, ["Floor_Tile"], 1⟩ ["unique_name_xyz"] rfl (by decide)

/-- Helper: the `finally` block of `process_cell_for_search` leaves the cell
with both slots cleared on every path. -/
theorem process_cell_final_cell (env : CellEnv) (tile_names_lower : List String) :
    (MapProcessor.process_cell_for_search env tile_names_lower).cell =
      { env.cell with header := none, data := none } := by
  unfold MapProcessor.process_cell_for_search
  rcases henv : env.header_result with _ | header
  · rfl
  · simp only
    split
    · rfl
    · rcases hp : env.pack_result with _ | cell_data <;> simp only [hp]

/-- C8: `process_cell_for_search` always hands back the cell with `header`
and `data` set to `None` — the `finally` block runs on every path — and
consequently every cell processed by a `search_tiles` pass over a
collection ends with both slots cleared. -/
theorem c8_search_releases_cells :
    (∀ (env : CellEnv) (tile_names_lower : List String),
        (MapProcessor.process_cell_for_search env tile_names_lower).cell.header = none ∧
        (MapProcessor.process_cell_for_search env tile_names_lower).cell.data = none) ∧
    (∀ (cells : List CellEnv) (tile_names : List String) (cell : MapCell),
        cell ∈ (MapProcessor.search_tiles cells tile_names).1 →
        cell.header = none ∧ cell.data = none) := by
  refine ⟨fun env q => by rw [process_cell_final_cell]; exact ⟨rfl, rfl⟩, ?_⟩
  intro cells tile_names cell hmem
  simp only [MapProcessor.search_tiles, List.map_map, List.mem_map] at hmem
  obtain ⟨env, _, rfl⟩ := hmem
  rw [Function.comp_apply, process_cell_final_cell]
  exact ⟨rfl, rfl⟩

/-- C8 witness: a cell that starts with parsed header and data loaded ends
the search pass with both slots cleared. -/
theorem c8_search_releases_cells_witness :
    (MapProcessor.process_cell_for_search
        ⟨⟨⟨0, 0⟩, some ⟨1, ["a"], 1⟩, some ⟨[]⟩⟩, some ⟨1, ["a"], 1⟩, some ⟨[]⟩⟩
        ["zzz"]).cell.header = none ∧
    (MapProcessor.process_cell_for_search
        ⟨⟨⟨0, 0⟩, some ⟨1, ["a"], 1⟩, some ⟨[]⟩⟩, some ⟨1, ["a"], 1⟩, some ⟨[]⟩⟩
        ["zzz"]).cell.data = none ∧
    ((⟨⟨0, 0⟩, none, none⟩ : MapCell).header = none ∧
     (⟨⟨0, 0⟩, none, none⟩ : MapCell).data = none) :=
  ⟨(c8_search_releases_cells.1 _ _).1, (c8_search_releases_cells.1 _ _).2,
   c8_search_releases_cells.2
     [⟨⟨⟨0, 0⟩, some ⟨1, ["a"], 1⟩, some ⟨[]⟩⟩, some ⟨1, ["a"], 1⟩, some ⟨[]⟩⟩]
     ["zzz"] ⟨⟨0, 0⟩, none, none⟩ (by decide)⟩
